import Mathlib

/-!
Shallow embedding of the incremental portfolio accounting engine
(`portfolio.py`, v3.0): per-ticker position ledger (quantity, cost basis,
average price), cash, realized/unrealized P&L, Welford statistics for
Sharpe/Sortino, the cache-backed valuation engine, and the trade-number
lifecycle tracker.  Prices and quantities are modelled as rationals;
Python `None` becomes `Option`; the module-level `portfolio_state`
dictionary becomes an explicit `PortfolioState` record threaded through
`process_trade`.
-/

namespace Portfolio

/-- Welford accumulator: `{'n': 0, 'mean': 0.0, 'M2': 0.0}` from
`_initial_portfolio_state` / `_update_pnl_stats`. -/
structure Welford where
  n : ℕ
  mean : ℚ
  M2 : ℚ
deriving Repr, DecidableEq

/-- Result of `calculate_sortino_ratio`: Python `None` (undefined sentinel),
`float('inf')`, or a finite value.  The finite branch carries the excess
return and the downside variance instead of the irrational
`excess / (sqrt variance / 100) * 100`; every branch decision of the source
is taken before the square root, so the branch structure is preserved
exactly. -/
inductive SortinoResult
  | undefined
  | posInf
  | finite (excess : ℚ) (variance : ℚ)
deriving Repr, DecidableEq

/-- One output row (the fields of the appended row dict that the
verification touches): 'Current Quantity', 'Available Balance',
'Avg Price', 'Cost Basis', 'PnL Realized at Point of Time',
'Realized PnL at Point of Time (Portfolio)',
'PnL Unrealized Total Value for Current Ticker', the trade number from
`get_or_create_trade_number`, and 'Sortino Ratio'. -/
structure Row where
  ticker : String
  quantity : ℚ
  remaining : ℚ
  avgPrice : ℚ
  costBasis : ℚ
  realizedPoint : Option ℚ
  realizedCum : ℚ
  unrealizedPoint : ℚ
  tradeNumber : Option ℕ
  sortino : SortinoResult
deriving Repr, DecidableEq

/-- The module-level mutable state (`portfolio_state` plus the
`trade_tracker` / `next_trade_number` globals).  Per-ticker dictionaries
(`defaultdict` with default `0`) are total functions from ticker strings. -/
structure PortfolioState where
  cash : ℚ
  remaining : ℚ
  quantities : String → ℚ
  cost_basis : String → ℚ
  avg_price : String → ℚ
  realized_pnl : ℚ
  pnl_stats : Welford
  downside_stats : Welford
  ticker_unrealized : String → ℚ
  total_unrealized : ℚ
  ticker_pv : String → ℚ
  total_pv : ℚ
  trade_tracker : String → Option ℕ
  next_trade_number : ℕ
  rows : List Row

/-- Pointwise dictionary update (`d[key] = v`). -/
def fupd {α : Type} (f : String → α) (key : String) (v : α) : String → α :=
  fun t => if t = key then v else f t

/-- Python `str.lower()` (character-wise; the side/position strings are
ASCII). -/
def pyLower (s : String) : String := ⟨s.data.map Char.toLower⟩

/-- Python `str.upper()` (character-wise; ticker symbols are ASCII). -/
def pyUpper (s : String) : String := ⟨s.data.map Char.toUpper⟩

/-- Python `str.strip()`: drop leading and trailing whitespace. -/
def pyStrip (s : String) : String :=
  ⟨((s.data.dropWhile Char.isWhitespace).reverse.dropWhile Char.isWhitespace).reverse⟩

/-- `_initial_portfolio_state(initial_cash)` together with the reset of the
trade-number globals (`reset_portfolio`). -/
def initial_portfolio_state (initial_cash : ℚ) : PortfolioState where
  cash := initial_cash
  remaining := initial_cash
  quantities := fun _ => 0
  cost_basis := fun _ => 0
  avg_price := fun _ => 0
  realized_pnl := 0
  pnl_stats := ⟨0, 0, 0⟩
  downside_stats := ⟨0, 0, 0⟩
  ticker_unrealized := fun _ => 0
  total_unrealized := 0
  ticker_pv := fun _ => 0
  total_pv := 0
  trade_tracker := fun _ => none
  next_trade_number := 1
  rows := []

/-- One input trade event (numeric quantity; the string notations accepted
by `normalize_quantity` all reduce to the absolute value taken here). -/
structure Event where
  ticker : String
  side : String
  price : ℚ
  quantity : ℚ
deriving Repr, DecidableEq

/-- `normalize_quantity` on a numeric argument: `abs(float(q))`. -/
def normalize_quantity (q : ℚ) : ℚ := |q|

/-- `calculate_remaining_single(side, price, q_in, old_quantity,
old_cost_basis)`: the remaining-cash update, reading
`portfolio_state['remaining']`. -/
def calculate_remaining_single (s : PortfolioState) (side : String)
    (price q_in old_quantity old_cost_basis : ℚ) : ℚ :=
  let rem := s.remaining
  let a := pyLower side
  let qty := if q_in < 0 then -q_in else q_in
  if qty = 0 ∨ a = "hold" then rem
  else
    -- prev_avg = abs(cost_basis / quantity) when quantity != 0
    let prev_avg := if old_quantity ≠ 0 then |old_cost_basis / old_quantity| else 0
    if a = "buy" then
      if old_quantity < 0 then
        -- Buy Short (cover up to held short) using prev_avg for initial
        let cover := min qty |old_quantity|
        let rem1 :=
          if 0 < cover then
            let initial := prev_avg * cover
            let final := price * cover
            rem + (initial + (initial - final))
          else rem
        -- Any excess turns into Buy Long at market
        let excess := qty - cover
        if 0 < excess then rem1 - price * excess else rem1
      else
        rem - price * qty
    else if a = "sell" then
      if 0 < old_quantity then
        -- Sell Long up to held long
        let close := min qty old_quantity
        let rem1 := if 0 < close then rem + price * close else rem
        -- Any excess turns into Sell Short at market
        let excess := qty - close
        if 0 < excess then rem1 - price * excess else rem1
      else
        rem - price * qty
    else rem

/-- `calculate_current_quantity_single` (the returned new quantity; the
dictionary write happens in `process_trade`). -/
def calculate_current_quantity_single (side : String) (q_in old_quantity : ℚ) : ℚ :=
  let a := pyLower side
  let qty := if q_in < 0 then -q_in else q_in
  if a = "hold" then old_quantity
  else if a = "buy" then old_quantity + qty
  else if a = "sell" then old_quantity - qty
  else old_quantity

/-- `calculate_avg_price_and_cost_basis_single`: returns
`(avg_price, cost_basis)`; the dictionary writes happen in
`process_trade`. -/
def calculate_avg_price_and_cost_basis_single (side : String)
    (price q_in old_quantity new_quantity old_cost_basis : ℚ) : ℚ × ℚ :=
  let a := pyLower side
  let qty := if q_in < 0 then -q_in else q_in
  let cb :=
    if a = "hold" then old_cost_basis
    else if a = "buy" then
      if old_quantity = 0 then
        -- Case 1: Open Long: cb = price × qty
        price * qty
      else if 0 < old_quantity then
        -- Case 3: Add to Long: cb = ((old_cost + new_cost) / total_qty) × new_qty
        ((old_cost_basis + price * qty) / (old_quantity + qty)) * new_quantity
      else
        -- Buying when short (covering)
        if 0 < new_quantity then
          -- Case 8: Flip Short→Long: cb = new_long_qty × new_price
          new_quantity * price
        else if new_quantity = 0 then
          -- Case 6: Full Close Short: cb = 0
          0
        else
          -- Still short (partial cover) - proportional reduction
          let to_cover := min qty |old_quantity|
          let remaining_short := |old_quantity| - to_cover
          if 0 < remaining_short then
            old_cost_basis * (remaining_short / |old_quantity|)
          else 0
    else if a = "sell" then
      if old_quantity = 0 then
        -- Case 2: Open Short: cb = price × qty
        price * qty
      else if old_quantity < 0 then
        -- Case 4: Add to Short: cb = ((old_cost + new_cost) / total_qty) × abs(new_qty)
        ((old_cost_basis + price * qty) / (|old_quantity| + qty)) * |new_quantity|
      else
        -- Selling when long
        if new_quantity < 0 then
          -- Case 7: Flip Long→Short: cb = new_short_qty × new_price
          |new_quantity| * price
        else if new_quantity = 0 then
          -- Case 5: Full Close Long: cb = 0
          0
        else
          -- Still long (partial close) - proportional reduction
          let remaining_long := old_quantity - qty
          if 0 < remaining_long then
            old_cost_basis * (remaining_long / old_quantity)
          else 0
    else old_cost_basis
  -- avg_price = abs(cost_basis / quantity) when quantity != 0, else both 0
  if new_quantity ≠ 0 then (|cb / new_quantity|, cb) else (0, 0)

/-- `calculate_realized_pnl_at_point_of_time`: realized P&L for this
specific closing event only; `None` when no closing occurs or the
previous average price is not positive. -/
def calculate_realized_pnl_at_point_of_time (s : PortfolioState)
    (ticker side position : String) (price q_in old_quantity : ℚ) : Option ℚ :=
  let a := pyLower side
  let pos := pyLower position
  -- Read old avg price from state (before it gets updated)
  let prev_avg_price := s.avg_price ticker
  if pos = "long" ∧ a = "sell" ∧ 0 < old_quantity then
    let qty := if q_in < 0 then -q_in else q_in
    -- Only realize on shares actually closed (min of qty and owned)
    let closed := min qty old_quantity
    if 0 < closed ∧ 0 < prev_avg_price then
      some ((price - prev_avg_price) * closed)
    else none
  else if pos = "short" ∧ a = "buy" ∧ old_quantity < 0 then
    let qty := if q_in < 0 then -q_in else q_in
    -- Only realize on shares actually covered (min of qty and owed)
    let closed := min qty |old_quantity|
    if 0 < closed ∧ 0 < prev_avg_price then
      some ((prev_avg_price - price) * closed)
    else none
  else none

/-- `calculate_realized_pnl_cumulative`: the updated value of
`portfolio_state['realized_pnl']` (write happens in `process_trade`;
the `trade_returns` bookkeeping is not used by any metric verified
here). -/
def calculate_realized_pnl_cumulative (s : PortfolioState)
    (ticker side position : String) (price q_in old_quantity : ℚ) : ℚ :=
  let realized := s.realized_pnl
  let a := pyLower side
  let pos := pyLower position
  -- Read old avg price from state (before it gets updated)
  let prev_avg_price := s.avg_price ticker
  let realized1 :=
    if pos = "long" ∧ a = "sell" ∧ 0 < old_quantity then
      let qty := if q_in < 0 then -q_in else q_in
      let closed := min qty old_quantity
      if 0 < closed ∧ 0 < prev_avg_price then
        realized + (price - prev_avg_price) * closed
      else realized
    else realized
  if pos = "short" ∧ a = "buy" ∧ old_quantity < 0 then
    let qty := if q_in < 0 then -q_in else q_in
    let closed := min qty |old_quantity|
    if 0 < closed ∧ 0 < prev_avg_price then
      realized1 + (prev_avg_price - price) * closed
    else realized1
  else realized1

/-- One Welford update (`stats['n'] += 1; delta = value - mean; ...`). -/
def welford_step (w : Welford) (value : ℚ) : Welford :=
  let n := w.n + 1
  let delta := value - w.mean
  let mean := w.mean + delta / (n : ℚ)
  { n := n, mean := mean, M2 := w.M2 + delta * (value - mean) }

/-- `_update_pnl_stats(current_realized_pnl_at_point)`: returns the updated
`(pnl_stats, downside_stats)` pair; `None` samples are ignored, negative
samples additionally feed the downside accumulator. -/
def update_pnl_stats (pnl downside : Welford) (point : Option ℚ) :
    Welford × Welford :=
  match point with
  | none => (pnl, downside)
  | some value =>
    let pnl' := welford_step pnl value
    if value < 0 then (pnl', welford_step downside value) else (pnl', downside)

/-- `pnl_unrealized_components(new_quantity, price, avg_price,
current_ticker, current_price, old_quantity)`: returns
`(long_u, short_u, total_unrealized_current_ticker,
total_unrealized_all_tickers)`; the cache writes happen in
`process_trade`.  On the exact bar that opens a position
(`old_quantity == 0`), unrealized P&L is forced to exactly 0. -/
def pnl_unrealized_components (s : PortfolioState)
    (new_quantity price avg_price : ℚ) (current_ticker : String)
    (current_price old_quantity : ℚ) : ℚ × ℚ × ℚ × ℚ :=
  let res :=
    if old_quantity = 0 ∧ new_quantity ≠ 0 then ((0 : ℚ), (0 : ℚ), (0 : ℚ))
    else
      let long_u := if 0 < new_quantity ∧ 0 < avg_price then
          (price - avg_price) * new_quantity else 0
      let short_u := if new_quantity < 0 ∧ 0 < avg_price then
          (avg_price - price) * |new_quantity| else 0
      (long_u, short_u, long_u + short_u)
  let prev_ticker_unrealized := s.ticker_unrealized current_ticker
  let total_all := s.total_unrealized + (res.2.2 - prev_ticker_unrealized)
  (res.1, res.2.1, res.2.2, total_all)

/-- `calculate_pv_for_current_ticker(current_price, current_position,
new_q, avg_p, cb)`: `(pv_long, pv_short)` for the traded ticker only,
`PV = cost basis + unrealized P&L`. -/
def calculate_pv_for_current_ticker (current_price : ℚ)
    (current_position : String) (new_q avg_p cb : ℚ) : ℚ × ℚ :=
  let pos := pyLower current_position
  if pos = "long" ∧ 0 < new_q ∧ 0 < avg_p then
    (cb + (current_price - avg_p) * new_q, 0)
  else if pos = "short" ∧ new_q < 0 ∧ 0 < avg_p then
    (0, cb + (avg_p - current_price) * |new_q|)
  else (0, 0)

/-- `calculate_total_pv_all_tickers(current_ticker, current_price)`:
recomputes only the traded ticker's PV from the (already updated) ledger
state and applies the delta to the portfolio total.  Returns
`(new_ticker_pv, total_pv)`; the cache writes happen in
`process_trade`. -/
def calculate_total_pv_all_tickers (s : PortfolioState)
    (current_ticker : String) (current_price : ℚ) : ℚ × ℚ :=
  let prev_ticker_pv := s.ticker_pv current_ticker
  let q := s.quantities current_ticker
  let cb := s.cost_basis current_ticker
  let avg := s.avg_price current_ticker
  let new_ticker_pv :=
    if 0 < q ∧ 0 < avg then cb + (current_price - avg) * q
    else if q < 0 ∧ 0 < avg then cb + (avg - current_price) * |q|
    else 0
  (new_ticker_pv, s.total_pv + (new_ticker_pv - prev_ticker_pv))

/-- `calculate_sortino_ratio(..., initial_balance, risk_free_rate)` reading
the downside Welford accumulator.  Branches mirror the source exactly;
`variance ≤ 0` covers the Python `std == 0 or isnan(std)` guard (the
square root of a negative variance is NaN). -/
def calculate_sortino_ratio (downside : Welford)
    (current_realized_pnl_cumulative initial_balance risk_free_rate : ℚ) :
    SortinoResult :=
  if initial_balance = 0 then .undefined
  else
    let portfolio_return := current_realized_pnl_cumulative / initial_balance
    let excess_return := portfolio_return - risk_free_rate
    if downside.n = 0 then
      if excess_return ≠ 0 then .posInf else .undefined
    else if downside.n < 2 then .undefined
    else
      let variance := downside.M2 / (downside.n : ℚ)
      if variance ≤ 0 then .undefined
      else .finite excess_return variance

/-- `get_or_create_trade_number(ticker, old_q, new_q, side)`: returns
`(trade number for this row, new tracker, new global counter)`.  The
caller passes the already-normalized upper-case ticker key (the source
re-applies `str.upper()` on entry, a no-op there). -/
def get_or_create_trade_number (tracker : String → Option ℕ) (next : ℕ)
    (ticker : String) (old_q new_q : ℚ) (side : String) :
    Option ℕ × (String → Option ℕ) × ℕ :=
  let a := pyLower side
  if a = "hold" then
    -- Position exists but holding: return existing trade number
    if (tracker ticker).isSome ∧ old_q ≠ 0 then (tracker ticker, tracker, next)
    else (none, tracker, next)
  else if old_q = 0 ∧ new_q ≠ 0 then
    -- Opening a new position: assign new trade number
    (some next, fupd tracker ticker (some next), next + 1)
  else if old_q ≠ 0 ∧ new_q = 0 then
    -- Closing a position: return existing number, remove from tracker
    (tracker ticker, fupd tracker ticker none, next)
  else if old_q ≠ 0 ∧ new_q ≠ 0 then
    if (0 < old_q ∧ new_q < 0) ∨ (old_q < 0 ∧ 0 < new_q) then
      -- Flip: row carries the old number; a fresh number is minted
      (tracker ticker, fupd tracker ticker (some next), next + 1)
    else
      -- Continue existing trade
      (tracker ticker, tracker, next)
  else (none, tracker, next)

/-- `ticker = str(ticker).strip().upper()` at the top of `process_trade`. -/
def trade_key (e : Event) : String := pyUpper (pyStrip e.ticker)

/-- `q_in = normalize_quantity(quantity_buy)`, forced to 0 for hold. -/
def trade_qin (e : Event) : ℚ :=
  if pyLower e.side = "hold" then 0 else normalize_quantity e.quantity

/-- The `prev_position` string derived in `process_trade` from the quantity
before the trade. -/
def prev_position_of (old_q : ℚ) : String :=
  if old_q < 0 then "short" else if 0 < old_q then "long" else "hold"

/-- The new quantity computed for the event's ticker. -/
def trade_new_q (s : PortfolioState) (e : Event) : ℚ :=
  calculate_current_quantity_single e.side (trade_qin e) (s.quantities (trade_key e))

/-- The event's `realized_pnl_at_point` value. -/
def trade_point (s : PortfolioState) (e : Event) : Option ℚ :=
  calculate_realized_pnl_at_point_of_time s (trade_key e) e.side
    (prev_position_of (s.quantities (trade_key e))) e.price (trade_qin e)
    (s.quantities (trade_key e))

/-- The event's `realized_pnl_cumulative` value. -/
def trade_cum (s : PortfolioState) (e : Event) : ℚ :=
  calculate_realized_pnl_cumulative s (trade_key e) e.side
    (prev_position_of (s.quantities (trade_key e))) e.price (trade_qin e)
    (s.quantities (trade_key e))

/-- The event's `(avg_p, cb)` pair. -/
def trade_avgcb (s : PortfolioState) (e : Event) : ℚ × ℚ :=
  calculate_avg_price_and_cost_basis_single e.side e.price (trade_qin e)
    (s.quantities (trade_key e)) (trade_new_q s e) (s.cost_basis (trade_key e))

/-- The event's unrealized components
`(long_u, short_u, total_current_ticker, total_all_tickers)`. -/
def trade_unreal (s : PortfolioState) (e : Event) : ℚ × ℚ × ℚ × ℚ :=
  pnl_unrealized_components s (trade_new_q s e) e.price (trade_avgcb s e).1
    (trade_key e) e.price (s.quantities (trade_key e))

/-- The event's `new_remaining` cash. -/
def trade_remaining (s : PortfolioState) (e : Event) : ℚ :=
  calculate_remaining_single s e.side e.price (trade_qin e)
    (s.quantities (trade_key e)) (s.cost_basis (trade_key e))

/-- The state after the writes performed inside the ledger functions
(`quantities`, `cost_basis`, `avg_price`, `realized_pnl`) and inside
`pnl_unrealized_components` (the unrealized caches). -/
def ledger_updated (s : PortfolioState) (e : Event) : PortfolioState :=
  { s with
    quantities := fupd s.quantities (trade_key e) (trade_new_q s e)
    cost_basis := fupd s.cost_basis (trade_key e) (trade_avgcb s e).2
    avg_price := fupd s.avg_price (trade_key e) (trade_avgcb s e).1
    realized_pnl := trade_cum s e
    ticker_unrealized := fupd s.ticker_unrealized (trade_key e) (trade_unreal s e).2.2.1
    total_unrealized := (trade_unreal s e).2.2.2 }

/-- The event's `(new_ticker_pv, total_pv)` pair, computed from the
already-updated ledger state as in the source. -/
def trade_pv (s : PortfolioState) (e : Event) : ℚ × ℚ :=
  calculate_total_pv_all_tickers (ledger_updated s e) (trade_key e) e.price

/-- The event's updated `(pnl_stats, downside_stats)` pair. -/
def trade_stats (s : PortfolioState) (e : Event) : Welford × Welford :=
  update_pnl_stats s.pnl_stats s.downside_stats (trade_point s e)

/-- The event's `(trade_number, trade_tracker, next_trade_number)` triple. -/
def trade_tn (s : PortfolioState) (e : Event) : Option ℕ × (String → Option ℕ) × ℕ :=
  get_or_create_trade_number s.trade_tracker s.next_trade_number (trade_key e)
    (s.quantities (trade_key e)) (trade_new_q s e) e.side

/-- The output row appended by `process_trade` for this event. -/
def trade_row (s : PortfolioState) (e : Event) : Row where
  ticker := trade_key e
  quantity := trade_new_q s e
  remaining := trade_remaining s e
  avgPrice := (trade_avgcb s e).1
  costBasis := (trade_avgcb s e).2
  realizedPoint := trade_point s e
  realizedCum := trade_cum s e
  unrealizedPoint := (trade_unreal s e).2.2.1
  tradeNumber := (trade_tn s e).1
  sortino := calculate_sortino_ratio (trade_stats s e).2 (trade_cum s e) s.cash 0

/-- `process_trade(ticker, ..., side, price, quantity_buy, ...)`: one event
through the full pipeline, in source order: normalize quantity (forced to
0 for hold) → remaining cash → quantity → realized P&L point/cumulative
(against the previous average price) → average price / cost basis →
unrealized components and valuation caches → Welford statistics →
Sortino → trade number → append row. -/
def process_trade (s : PortfolioState) (e : Event) : PortfolioState :=
  { ledger_updated s e with
    remaining := trade_remaining s e
    ticker_pv := fupd s.ticker_pv (trade_key e) (trade_pv s e).1
    total_pv := (trade_pv s e).2
    pnl_stats := (trade_stats s e).1
    downside_stats := (trade_stats s e).2
    trade_tracker := (trade_tn s e).2.1
    next_trade_number := (trade_tn s e).2.2
    rows := s.rows ++ [trade_row s e] }

/-- `reset_portfolio(c)` followed by `add_trade` for each event. -/
def run_events (s : PortfolioState) (events : List Event) : PortfolioState :=
  events.foldl process_trade s

-- Basic unfolding lemmas for `run_events` and `process_trade` fields.

lemma run_events_nil (s : PortfolioState) : run_events s [] = s := rfl

lemma run_events_cons (s : PortfolioState) (e : Event) (es : List Event) :
    run_events s (e :: es) = run_events (process_trade s e) es := rfl

lemma run_events_concat (s : PortfolioState) (es : List Event) (e : Event) :
    run_events s (es ++ [e]) = process_trade (run_events s es) e := by
  simp [run_events]

lemma process_trade_rows (s : PortfolioState) (e : Event) :
    (process_trade s e).rows = s.rows ++ [trade_row s e] := rfl

lemma process_trade_cash (s : PortfolioState) (e : Event) :
    (process_trade s e).cash = s.cash := rfl

lemma process_trade_realized (s : PortfolioState) (e : Event) :
    (process_trade s e).realized_pnl = trade_cum s e := rfl

lemma process_trade_quantities (s : PortfolioState) (e : Event) :
    (process_trade s e).quantities = fupd s.quantities (trade_key e) (trade_new_q s e) := rfl

lemma process_trade_cost_basis (s : PortfolioState) (e : Event) :
    (process_trade s e).cost_basis = fupd s.cost_basis (trade_key e) (trade_avgcb s e).2 := rfl

lemma process_trade_avg_price (s : PortfolioState) (e : Event) :
    (process_trade s e).avg_price = fupd s.avg_price (trade_key e) (trade_avgcb s e).1 := rfl

lemma process_trade_remaining (s : PortfolioState) (e : Event) :
    (process_trade s e).remaining = trade_remaining s e := rfl

lemma process_trade_ticker_unrealized (s : PortfolioState) (e : Event) :
    (process_trade s e).ticker_unrealized
      = fupd s.ticker_unrealized (trade_key e) (trade_unreal s e).2.2.1 := rfl

lemma process_trade_ticker_pv (s : PortfolioState) (e : Event) :
    (process_trade s e).ticker_pv = fupd s.ticker_pv (trade_key e) (trade_pv s e).1 := rfl

lemma process_trade_pnl_stats (s : PortfolioState) (e : Event) :
    (process_trade s e).pnl_stats = (trade_stats s e).1 := rfl

lemma process_trade_downside_stats (s : PortfolioState) (e : Event) :
    (process_trade s e).downside_stats = (trade_stats s e).2 := rfl

lemma process_trade_tracker (s : PortfolioState) (e : Event) :
    (process_trade s e).trade_tracker = (trade_tn s e).2.1 := rfl

lemma process_trade_next (s : PortfolioState) (e : Event) :
    (process_trade s e).next_trade_number = (trade_tn s e).2.2 := rfl

/-- The initial cash never changes (`calculate_cash_single`). -/
lemma run_events_cash (s : PortfolioState) (events : List Event) :
    (run_events s events).cash = s.cash := by
  induction events generalizing s with
  | nil => rfl
  | cons e es ih => rw [run_events_cons, ih, process_trade_cash]

-- The Batteries rational operations are `@[irreducible]`, which blocks
-- `decide` on concrete scenario runs; restore default reducibility locally.
attribute [local semireducible] Rat.add Rat.sub Rat.mul Rat.inv

@[simp] lemma pyLower_long : pyLower "long" = "long" := rfl

@[simp] lemma pyLower_short : pyLower "short" = "short" := rfl

@[simp] lemma pyLower_hold : pyLower "hold" = "hold" := rfl

lemma trade_qin_nonneg (e : Event) : 0 ≤ trade_qin e := by
  unfold trade_qin normalize_quantity
  split <;> simp [abs_nonneg]

/-- The `qty = abs(q_in) if q_in < 0 else q_in` step is the identity on the
already non-negative `q_in` used by `process_trade`. -/
lemma qty_of_qin (e : Event) :
    (if trade_qin e < 0 then -trade_qin e else trade_qin e) = trade_qin e := by
  rw [if_neg (not_lt.mpr (trade_qin_nonneg e))]

/-- C2: Starting from reset(200), Buy AAPL 10@10 gives remaining 100, cost
basis 100, avg price 10; Sell AAPL 5@12 gives remaining 160, cost basis
50, realized point P&L 10; Sell AAPL 10@12 flips to a short of 5 with
realized point P&L exactly 10 (only the 5 closed shares) and cost basis
60 (a fresh 5×12 short lot). -/
theorem c2_scenario_long_flip :
    ((run_events (initial_portfolio_state 200)
        [⟨"AAPL", "Buy", 10, 10⟩, ⟨"AAPL", "Sell", 12, 5⟩, ⟨"AAPL", "Sell", 12, 10⟩]).rows.map
      (fun r => (r.remaining, r.costBasis, r.avgPrice, r.realizedPoint, r.quantity)))
    = [(100, 100, 10, none, 10), (160, 50, 10, some 10, 5), (160, 60, 12, some 10, -5)] := by
  decide

/-- C3: Starting from reset(1000), Sell TSLA 5@20 (opening a short) leaves
remaining cash 900; Buy TSLA 3@18 (partial cover) gives remaining
900 + [20·3 + (20·3 − 18·3)] = 966 and realized point P&L (20−18)·3 = 6. -/
theorem c3_scenario_short_cover :
    ((run_events (initial_portfolio_state 1000)
        [⟨"TSLA", "Sell", 20, 5⟩, ⟨"TSLA", "Buy", 18, 3⟩]).rows.map
      (fun r => (r.remaining, r.realizedPoint)))
    = [(900, none), (966, some 6)] := by
  decide

/-- C5: On the event that opens a position (previous quantity exactly 0,
new quantity non-zero), `pnl_unrealized_components` forces the reported
unrealized P&L for the ticker to exactly 0 (both directional components
and their total), regardless of the price/average-price arguments. -/
theorem c5_opening_unrealized_forced_zero (s : PortfolioState)
    (new_quantity price avg_price : ℚ) (tk : String)
    (current_price old_quantity : ℚ)
    (h0 : old_quantity = 0) (h1 : new_quantity ≠ 0) :
    (pnl_unrealized_components s new_quantity price avg_price tk current_price
        old_quantity).1 = 0
    ∧ (pnl_unrealized_components s new_quantity price avg_price tk current_price
        old_quantity).2.1 = 0
    ∧ (pnl_unrealized_components s new_quantity price avg_price tk current_price
        old_quantity).2.2.1 = 0 := by
  simp [pnl_unrealized_components, h0, h1]

/-- Witness for C5 at a concrete input where the forced value differs from
the naive mark-to-market formula (price 5 against average price 3). -/
theorem c5_opening_unrealized_forced_zero_witness :
    (pnl_unrealized_components (initial_portfolio_state 100) 1 5 3 "A" 5 0).1 = 0
    ∧ (pnl_unrealized_components (initial_portfolio_state 100) 1 5 3 "A" 5 0).2.1 = 0
    ∧ (pnl_unrealized_components (initial_portfolio_state 100) 1 5 3 "A" 5 0).2.2.1 = 0 :=
  c5_opening_unrealized_forced_zero (initial_portfolio_state 100) 1 5 3 "A" 5 0
    rfl (by norm_num)

/-- A closing event whose previous average price is 0 records no realized
P&L at point of time. -/
lemma trade_point_none_of_avg_zero (s : PortfolioState) (e : Event)
    (havg : s.avg_price (trade_key e) = 0) :
    trade_point s e = none := by
  unfold trade_point calculate_realized_pnl_at_point_of_time
  simp only [havg]
  split_ifs with h1 h2 h3 h4 <;> simp_all

/-- `calculate_realized_pnl_cumulative` advances the cumulative value by
exactly the per-event realized P&L at point of time (0 when that is
`None`): the two functions share their guards and formulas. -/
lemma trade_cum_of_point (s : PortfolioState) (e : Event) :
    trade_cum s e = s.realized_pnl + ((trade_point s e).getD 0) := by
  unfold trade_cum trade_point calculate_realized_pnl_cumulative
    calculate_realized_pnl_at_point_of_time
  simp only [qty_of_qin]
  split_ifs with h1 h2 h3 h4 h5 h6 <;> simp_all

/-- C10: For every event that closes part or all of a position whose
previous average price is 0, the realized P&L at point of time is the
no-value sentinel (`None`), the cumulative realized P&L is unchanged, and
no Sharpe/Sortino sample is recorded (both Welford accumulators are left
untouched), even when the closing price is positive. -/
theorem c10_zero_avg_close_records_nothing (s : PortfolioState) (e : Event)
    (hclose : (pyLower e.side = "sell" ∧ 0 < s.quantities (trade_key e))
      ∨ (pyLower e.side = "buy" ∧ s.quantities (trade_key e) < 0))
    (hq : 0 < trade_qin e)
    (havg : s.avg_price (trade_key e) = 0) :
    (trade_row s e).realizedPoint = none
    ∧ (process_trade s e).realized_pnl = s.realized_pnl
    ∧ (process_trade s e).pnl_stats = s.pnl_stats
    ∧ (process_trade s e).downside_stats = s.downside_stats := by
  have hp : trade_point s e = none := trade_point_none_of_avg_zero s e havg
  refine ⟨hp, ?_, ?_, ?_⟩
  · rw [process_trade_realized, trade_cum_of_point, hp]; simp
  · rw [process_trade_pnl_stats]; unfold trade_stats update_pnl_stats; rw [hp]
  · rw [process_trade_downside_stats]; unfold trade_stats update_pnl_stats; rw [hp]

/-- Witness for C10: open 2 shares of A at price 0 (average price 0), then
sell 1 at the positive price 5 — nothing is recorded. -/
theorem c10_zero_avg_close_records_nothing_witness :
    ((pyLower ("Sell" : String) = "sell"
        ∧ 0 < (run_events (initial_portfolio_state 100) [⟨"A", "Buy", 0, 2⟩]).quantities
            (trade_key ⟨"A", "Sell", 5, 1⟩))
      ∨ (pyLower ("Sell" : String) = "buy"
        ∧ (run_events (initial_portfolio_state 100) [⟨"A", "Buy", 0, 2⟩]).quantities
            (trade_key ⟨"A", "Sell", 5, 1⟩) < 0))
    ∧ ((trade_row (run_events (initial_portfolio_state 100) [⟨"A", "Buy", 0, 2⟩])
          ⟨"A", "Sell", 5, 1⟩).realizedPoint = none
      ∧ (process_trade (run_events (initial_portfolio_state 100) [⟨"A", "Buy", 0, 2⟩])
          ⟨"A", "Sell", 5, 1⟩).realized_pnl
          = (run_events (initial_portfolio_state 100) [⟨"A", "Buy", 0, 2⟩]).realized_pnl
      ∧ (process_trade (run_events (initial_portfolio_state 100) [⟨"A", "Buy", 0, 2⟩])
          ⟨"A", "Sell", 5, 1⟩).pnl_stats
          = (run_events (initial_portfolio_state 100) [⟨"A", "Buy", 0, 2⟩]).pnl_stats
      ∧ (process_trade (run_events (initial_portfolio_state 100) [⟨"A", "Buy", 0, 2⟩])
          ⟨"A", "Sell", 5, 1⟩).downside_stats
          = (run_events (initial_portfolio_state 100) [⟨"A", "Buy", 0, 2⟩]).downside_stats) :=
  ⟨Or.inl (by decide),
   c10_zero_avg_close_records_nothing
     (run_events (initial_portfolio_state 100) [⟨"A", "Buy", 0, 2⟩]) ⟨"A", "Sell", 5, 1⟩
     (Or.inl (by decide)) (by decide) (by decide)⟩

lemma trade_row_point (s : PortfolioState) (e : Event) :
    (trade_row s e).realizedPoint = trade_point s e := rfl

/-- C1 counterexample: a long opened at price 0 (average price 0) and then
partially closed at price 5 records `None` (no value) as realized P&L,
not the claimed `(price − previous average price) × closed quantity`
`= (5 − 0) × min(1, 1) = 5`. -/
theorem c1_counterexample_zero_avg :
    ((run_events (initial_portfolio_state 100)
        [⟨"A", "Buy", 0, 1⟩, ⟨"A", "Sell", 5, 1⟩]).rows.map Row.realizedPoint)
      = [none, none]
    ∧ (none : Option ℚ) ≠ some (((5 : ℚ) - 0) * min 1 1) := by
  decide

/-- C1 (amended): for every event that closes part or all of an existing
position **whose previous average price is positive**, the realized P&L
recorded for that event (row value and cumulative increment) is computed
against the previous average price on closed quantity
`min(trade magnitude, closeable quantity)`: `(price − prev avg) × closed`
when selling from a long, `(prev avg − price) × closed` when buying to
cover a short; the excess magnitude only moves the quantity to the
opposite direction (`old ∓ magnitude`) and contributes nothing.  (When
the previous average price is 0 the event records `None` instead — see
C10 and the counterexample.) -/
theorem c1_realized_pnl_closed_quantity (s : PortfolioState) (e : Event) :
    ((pyLower e.side = "sell" → 0 < s.quantities (trade_key e) → 0 < trade_qin e →
      0 < s.avg_price (trade_key e) →
      (trade_row s e).realizedPoint
          = some ((e.price - s.avg_price (trade_key e))
              * min (trade_qin e) (s.quantities (trade_key e)))
        ∧ (process_trade s e).realized_pnl
          = s.realized_pnl + (e.price - s.avg_price (trade_key e))
              * min (trade_qin e) (s.quantities (trade_key e))
        ∧ trade_new_q s e = s.quantities (trade_key e) - trade_qin e)
    ∧ (pyLower e.side = "buy" → s.quantities (trade_key e) < 0 → 0 < trade_qin e →
      0 < s.avg_price (trade_key e) →
      (trade_row s e).realizedPoint
          = some ((s.avg_price (trade_key e) - e.price)
              * min (trade_qin e) |s.quantities (trade_key e)|)
        ∧ (process_trade s e).realized_pnl
          = s.realized_pnl + (s.avg_price (trade_key e) - e.price)
              * min (trade_qin e) |s.quantities (trade_key e)|
        ∧ trade_new_q s e = s.quantities (trade_key e) + trade_qin e)) := by
  constructor
  · intro hside hold hq havg
    have hpos : prev_position_of (s.quantities (trade_key e)) = "long" := by
      unfold prev_position_of
      rw [if_neg (by linarith), if_pos hold]
    have hpt : trade_point s e
        = some ((e.price - s.avg_price (trade_key e))
            * min (trade_qin e) (s.quantities (trade_key e))) := by
      unfold trade_point calculate_realized_pnl_at_point_of_time
      simp [hpos, hside, qty_of_qin, hold, lt_min hq hold, havg]
    have hnq : trade_new_q s e = s.quantities (trade_key e) - trade_qin e := by
      unfold trade_new_q calculate_current_quantity_single
      simp [hside, qty_of_qin]
    refine ⟨by rw [trade_row_point, hpt], ?_, hnq⟩
    rw [process_trade_realized, trade_cum_of_point, hpt]
    simp
  · intro hside hold hq havg
    have hpos : prev_position_of (s.quantities (trade_key e)) = "short" := by
      unfold prev_position_of
      rw [if_pos hold]
    have hpt : trade_point s e
        = some ((s.avg_price (trade_key e) - e.price)
            * min (trade_qin e) |s.quantities (trade_key e)|) := by
      unfold trade_point calculate_realized_pnl_at_point_of_time
      simp [hpos, hside, qty_of_qin, hold,
        lt_min hq (abs_pos.mpr (ne_of_lt hold)), havg]
    have hnq : trade_new_q s e = s.quantities (trade_key e) + trade_qin e := by
      unfold trade_new_q calculate_current_quantity_single
      simp [hside, qty_of_qin]
    refine ⟨by rw [trade_row_point, hpt], ?_, hnq⟩
    rw [process_trade_realized, trade_cum_of_point, hpt]
    simp

/-- Concrete pre-state for the C1 witness (long 10 AAPL at 10). -/
def c1s : PortfolioState :=
  run_events (initial_portfolio_state 200) [⟨"AAPL", "Buy", 10, 10⟩]

/-- C1 witness closing event: sell 15 against a long of 10 (flip). -/
def c1e : Event := ⟨"AAPL", "Sell", 12, 15⟩

/-- Concrete pre-state for the C1 cover witness (short 5 T at 20). -/
def c1s_cover : PortfolioState :=
  run_events (initial_portfolio_state 1000) [⟨"T", "Sell", 20, 5⟩]

/-- C1 cover witness event: buy 3 against a short of 5 (partial cover). -/
def c1e_cover : Event := ⟨"T", "Buy", 18, 3⟩

/-- Witness for C1 (amended) on both closing directions, at concrete
inputs with satisfied hypotheses. -/
theorem c1_realized_pnl_closed_quantity_witness :
    (pyLower c1e.side = "sell" ∧ 0 < c1s.quantities (trade_key c1e)
      ∧ 0 < trade_qin c1e ∧ 0 < c1s.avg_price (trade_key c1e))
    ∧ ((trade_row c1s c1e).realizedPoint
        = some ((c1e.price - c1s.avg_price (trade_key c1e))
            * min (trade_qin c1e) (c1s.quantities (trade_key c1e)))
      ∧ (process_trade c1s c1e).realized_pnl
        = c1s.realized_pnl + (c1e.price - c1s.avg_price (trade_key c1e))
            * min (trade_qin c1e) (c1s.quantities (trade_key c1e))
      ∧ trade_new_q c1s c1e = c1s.quantities (trade_key c1e) - trade_qin c1e)
    ∧ (pyLower c1e_cover.side = "buy" ∧ c1s_cover.quantities (trade_key c1e_cover) < 0
      ∧ 0 < trade_qin c1e_cover ∧ 0 < c1s_cover.avg_price (trade_key c1e_cover))
    ∧ ((trade_row c1s_cover c1e_cover).realizedPoint
        = some ((c1s_cover.avg_price (trade_key c1e_cover) - c1e_cover.price)
            * min (trade_qin c1e_cover) |c1s_cover.quantities (trade_key c1e_cover)|)
      ∧ (process_trade c1s_cover c1e_cover).realized_pnl
        = c1s_cover.realized_pnl
            + (c1s_cover.avg_price (trade_key c1e_cover) - c1e_cover.price)
            * min (trade_qin c1e_cover) |c1s_cover.quantities (trade_key c1e_cover)|
      ∧ trade_new_q c1s_cover c1e_cover
        = c1s_cover.quantities (trade_key c1e_cover) + trade_qin c1e_cover) :=
  ⟨⟨by decide, by decide, by decide, by decide⟩,
   (c1_realized_pnl_closed_quantity c1s c1e).1 (by decide) (by decide) (by decide) (by decide),
   ⟨by decide, by decide, by decide, by decide⟩,
   (c1_realized_pnl_closed_quantity c1s_cover c1e_cover).2 (by decide) (by decide)
     (by decide) (by decide)⟩

/-- The cumulative realized P&L always equals the running sum of the
per-row point values (0 for `None`). -/
lemma realized_eq_sum_rows (events : List Event) (s : PortfolioState)
    (h : s.realized_pnl = (s.rows.map (fun r => r.realizedPoint.getD 0)).sum) :
    (run_events s events).realized_pnl
      = ((run_events s events).rows.map (fun r => r.realizedPoint.getD 0)).sum := by
  induction events generalizing s with
  | nil => exact h
  | cons e es ih =>
    rw [run_events_cons]
    apply ih
    rw [process_trade_realized, trade_cum_of_point, process_trade_rows]
    simp [h, trade_row_point]

/-- After at least one event, the last row's cumulative realized P&L field
equals the state's cumulative realized P&L. -/
lemma last_row_cum (events : List Event) (s : PortfolioState) (hne : events ≠ []) :
    ((run_events s events).rows.getLast?).map Row.realizedCum
      = some (run_events s events).realized_pnl := by
  induction events generalizing s with
  | nil => exact absurd rfl hne
  | cons e es ih =>
    cases es with
    | nil =>
      rw [run_events_cons, run_events_nil, process_trade_rows, process_trade_realized]
      simp [List.getLast?_concat]
      rfl
    | cons e2 es2 =>
      rw [run_events_cons]
      exact ih (process_trade s e) (by simp)

/-- C4: For every non-empty sequence of trade events on a single ticker
processed after a reset, the sum of the per-event realized P&L at point
of time values (counting `None` as 0) equals the cumulative realized P&L
reported on the final event's output row. -/
theorem c4_point_sum_eq_final_cumulative (c : ℚ) (tk : String) (events : List Event)
    (hne : events ≠ []) (hsingle : ∀ e ∈ events, e.ticker = tk) :
    ((run_events (initial_portfolio_state c) events).rows.getLast?).map Row.realizedCum
      = some (((run_events (initial_portfolio_state c) events).rows.map
            (fun r => r.realizedPoint.getD 0)).sum) := by
  rw [last_row_cum events _ hne,
    realized_eq_sum_rows events _ (by simp [initial_portfolio_state])]

/-- Witness for C4 on the reset(200) AAPL long/flip scenario. -/
theorem c4_point_sum_eq_final_cumulative_witness :
    (([⟨"AAPL", "Buy", 10, 10⟩, ⟨"AAPL", "Sell", 12, 5⟩, ⟨"AAPL", "Sell", 12, 10⟩]
        : List Event) ≠ [])
    ∧ (∀ e ∈ ([⟨"AAPL", "Buy", 10, 10⟩, ⟨"AAPL", "Sell", 12, 5⟩,
        ⟨"AAPL", "Sell", 12, 10⟩] : List Event), e.ticker = "AAPL")
    ∧ ((run_events (initial_portfolio_state 200)
          [⟨"AAPL", "Buy", 10, 10⟩, ⟨"AAPL", "Sell", 12, 5⟩,
           ⟨"AAPL", "Sell", 12, 10⟩]).rows.getLast?).map Row.realizedCum
        = some (((run_events (initial_portfolio_state 200)
            [⟨"AAPL", "Buy", 10, 10⟩, ⟨"AAPL", "Sell", 12, 5⟩,
             ⟨"AAPL", "Sell", 12, 10⟩]).rows.map
              (fun r => r.realizedPoint.getD 0)).sum) :=
  ⟨by decide, by decide,
   c4_point_sum_eq_final_cumulative 200 "AAPL"
     [⟨"AAPL", "Buy", 10, 10⟩, ⟨"AAPL", "Sell", 12, 5⟩, ⟨"AAPL", "Sell", 12, 10⟩]
     (by decide) (by decide)⟩

/-- While the downside accumulator is empty, the cumulative realized P&L
is non-negative: every recorded sample was non-negative and the
cumulative value is their sum. -/
lemma nonneg_realized_of_no_downside (events : List Event) (s : PortfolioState)
    (h : s.downside_stats.n = 0 → 0 ≤ s.realized_pnl) :
    (run_events s events).downside_stats.n = 0 → 0 ≤ (run_events s events).realized_pnl := by
  induction events generalizing s with
  | nil => exact h
  | cons e es ih =>
    rw [run_events_cons]
    apply ih
    intro hd0
    rw [process_trade_realized, trade_cum_of_point]
    rw [process_trade_downside_stats] at hd0
    cases hpt : trade_point s e with
    | none =>
      simp only [trade_stats, update_pnl_stats, hpt] at hd0
      simpa [hpt] using h hd0
    | some v =>
      by_cases hv : v < 0
      · exfalso
        simp [trade_stats, update_pnl_stats, hpt, hv, welford_step] at hd0
      · have h0 : s.downside_stats.n = 0 := by
          simpa [trade_stats, update_pnl_stats, hpt, hv] using hd0
        have hr := h h0
        push_neg at hv
        simp only [hpt, Option.getD_some]
        linarith

/-- With no downside samples, `calculate_sortino_ratio` returns `inf` for
a non-zero excess return and the undefined sentinel for a zero one; under
a non-negative cumulative value this matches "`inf` iff positive". -/
lemma sortino_no_downside (w : Welford) (cum c : ℚ)
    (hw : w.n = 0) (hc : 0 < c) (hcum : 0 ≤ cum) :
    calculate_sortino_ratio w cum c 0
      = (if 0 < cum / c - 0 then SortinoResult.posInf else SortinoResult.undefined) := by
  unfold calculate_sortino_ratio
  rw [if_neg (by exact ne_of_gt hc)]
  simp only [hw, if_pos rfl]
  by_cases h : cum / c = 0
  · simp [h]
  · have hpos : 0 < cum / c := lt_of_le_of_ne (div_nonneg hcum hc.le) (Ne.symm h)
    simp [h, hpos, sub_eq_zero]

/-- C7: At every event after which at least one realized P&L sample has
been recorded but no downside sample exists, the Sortino ratio reported
on that event's row is +∞ exactly when the numerator — cumulative
realized P&L / initial balance minus the (zero) risk-free rate — is
positive, and the undefined sentinel otherwise. -/
theorem c7_sortino_no_downside_rule (c : ℚ) (events : List Event) (e : Event)
    (hc : 0 < c)
    (hn : 1 ≤ (run_events (initial_portfolio_state c) (events ++ [e])).pnl_stats.n)
    (hd : (run_events (initial_portfolio_state c) (events ++ [e])).downside_stats.n = 0) :
    ((run_events (initial_portfolio_state c) (events ++ [e])).rows.getLast?).map Row.sortino
      = some (if 0 < (run_events (initial_portfolio_state c) (events ++ [e])).realized_pnl / c - 0
          then SortinoResult.posInf else SortinoResult.undefined) := by
  have hnn : 0 ≤ (run_events (initial_portfolio_state c) (events ++ [e])).realized_pnl :=
    nonneg_realized_of_no_downside (events ++ [e]) (initial_portfolio_state c)
      (fun _ => by simp [initial_portfolio_state]) hd
  rw [run_events_concat] at hd hnn ⊢
  rw [process_trade_rows]
  rw [List.getLast?_concat]
  rw [process_trade_downside_stats] at hd
  rw [process_trade_realized] at hnn ⊢
  have hsort : (trade_row (run_events (initial_portfolio_state c) events) e).sortino
      = calculate_sortino_ratio
          (trade_stats (run_events (initial_portfolio_state c) events) e).2
          (trade_cum (run_events (initial_portfolio_state c) events) e)
          (run_events (initial_portfolio_state c) events).cash 0 := rfl
  have hiff := sortino_no_downside
    (trade_stats (run_events (initial_portfolio_state c) events) e).2
    (trade_cum (run_events (initial_portfolio_state c) events) e) c hd hc hnn
  rw [Option.map_some', hsort, run_events_cash]
  have hcash : (initial_portfolio_state c).cash = c := rfl
  rw [hcash, hiff]

/-- Witness for C7: one positive realized sample (sell 1 A bought at 10
for 12), no downside sample, positive numerator — the reported Sortino
ratio evaluates to +∞. -/
theorem c7_sortino_no_downside_rule_witness :
    (0 : ℚ) < 100
    ∧ 1 ≤ (run_events (initial_portfolio_state 100)
        ([⟨"A", "Buy", 10, 1⟩] ++ [⟨"A", "Sell", 12, 1⟩])).pnl_stats.n
    ∧ (run_events (initial_portfolio_state 100)
        ([⟨"A", "Buy", 10, 1⟩] ++ [⟨"A", "Sell", 12, 1⟩])).downside_stats.n = 0
    ∧ ((run_events (initial_portfolio_state 100)
          ([⟨"A", "Buy", 10, 1⟩] ++ [⟨"A", "Sell", 12, 1⟩])).rows.getLast?).map Row.sortino
        = some (if 0 < (run_events (initial_portfolio_state 100)
              ([⟨"A", "Buy", 10, 1⟩] ++ [⟨"A", "Sell", 12, 1⟩])).realized_pnl / 100 - 0
            then SortinoResult.posInf else SortinoResult.undefined) :=
  ⟨by norm_num, by decide, by decide,
   c7_sortino_no_downside_rule 100 [⟨"A", "Buy", 10, 1⟩] ⟨"A", "Sell", 12, 1⟩
     (by norm_num) (by decide) (by decide)⟩


/-- `fupd` at the updated key. -/
@[simp] lemma fupd_same {α : Type} (f : String → α) (k : String) (v : α) :
    fupd f k v k = v := by simp [fupd]

lemma fupd_other {α : Type} (f : String → α) (k t : String) (v : α) (h : t ≠ k) :
    fupd f k v t = f t := by simp [fupd, h]

/-- The `(avg_price, cost_basis)` pair always satisfies
`avg = |cb / new_q|` for a non-zero new quantity, and is `(0, 0)` at a
flat position. -/
lemma avgcb_pair (side : String) (price q_in old_q new_q old_cb : ℚ) :
    ((new_q ≠ 0 →
      (calculate_avg_price_and_cost_basis_single side price q_in old_q new_q old_cb).1
        = |(calculate_avg_price_and_cost_basis_single side price q_in old_q new_q old_cb).2
            / new_q|)
    ∧ (new_q = 0 →
      (calculate_avg_price_and_cost_basis_single side price q_in old_q new_q old_cb).1 = 0
      ∧ (calculate_avg_price_and_cost_basis_single side price q_in old_q new_q old_cb).2 = 0)) := by
  unfold calculate_avg_price_and_cost_basis_single
  by_cases h : new_q = 0 <;> simp [h]

/-- On an opening event the fresh lot's cost basis is
`price × |new quantity|`. -/
lemma opening_cb (s : PortfolioState) (e : Event)
    (h0 : s.quantities (trade_key e) = 0) (h1 : trade_new_q s e ≠ 0) :
    (trade_avgcb s e).2 = e.price * |trade_new_q s e| := by
  have hq : 0 ≤ trade_qin e := trade_qin_nonneg e
  by_cases hh : pyLower e.side = "hold"
  · exfalso
    apply h1
    unfold trade_new_q calculate_current_quantity_single
    simp [hh, h0]
  by_cases hb : pyLower e.side = "buy"
  · have hnq : trade_new_q s e = trade_qin e := by
      unfold trade_new_q calculate_current_quantity_single
      simp [hb, hh, qty_of_qin, h0]
    have hq0 : trade_qin e ≠ 0 := by rw [hnq] at h1; exact h1
    unfold trade_avgcb calculate_avg_price_and_cost_basis_single
    simp only [hb, hh, qty_of_qin, h0, hnq]
    simp [abs_of_nonneg hq, hq0]
  by_cases hs : pyLower e.side = "sell"
  · have hnq : trade_new_q s e = -trade_qin e := by
      unfold trade_new_q calculate_current_quantity_single
      simp [hs, hb, hh, qty_of_qin, h0]
    have hq0 : trade_qin e ≠ 0 := by rw [hnq] at h1; simpa using h1
    unfold trade_avgcb calculate_avg_price_and_cost_basis_single
    simp only [hs, hb, hh, qty_of_qin, h0, hnq]
    simp [abs_of_nonneg hq, hq0]
  · exfalso
    apply h1
    unfold trade_new_q calculate_current_quantity_single
    simp [hh, hb, hs, h0]


/-- Per event, the traded ticker's freshly cached position value equals
its fresh cost basis plus its fresh (possibly forced-to-zero) unrealized
P&L. -/
lemma trade_pv_eq_cb_add_unreal (s : PortfolioState) (e : Event) (hp : 0 ≤ e.price) :
    (trade_pv s e).1 = (trade_avgcb s e).2 + (trade_unreal s e).2.2.1 := by
  have hpair : ((trade_new_q s e ≠ 0 →
        (trade_avgcb s e).1 = |(trade_avgcb s e).2 / trade_new_q s e|)
      ∧ (trade_new_q s e = 0 →
        (trade_avgcb s e).1 = 0 ∧ (trade_avgcb s e).2 = 0)) :=
    avgcb_pair e.side e.price (trade_qin e)
      (s.quantities (trade_key e)) (trade_new_q s e) (s.cost_basis (trade_key e))
  set old_q := s.quantities (trade_key e) with hold_def
  set new_q := trade_new_q s e with hnew_def
  set avg := (trade_avgcb s e).1 with havg_def
  set cb := (trade_avgcb s e).2 with hcb_def
  have hpv : (trade_pv s e).1
      = (if 0 < new_q ∧ 0 < avg then cb + (e.price - avg) * new_q
         else if new_q < 0 ∧ 0 < avg then cb + (avg - e.price) * |new_q|
         else 0) := by
    unfold trade_pv calculate_total_pv_all_tickers ledger_updated
    simp [fupd_same]
  have hun : (trade_unreal s e).2.2.1
      = (if old_q = 0 ∧ new_q ≠ 0 then 0
         else (if 0 < new_q ∧ 0 < avg then (e.price - avg) * new_q else 0)
           + (if new_q < 0 ∧ 0 < avg then (avg - e.price) * |new_q| else 0)) := by
    unfold trade_unreal pnl_unrealized_components
    split_ifs <;> simp_all
  rw [hpv, hun]
  by_cases hopen : old_q = 0 ∧ new_q ≠ 0
  · -- opening bar: unrealized forced to 0; the fresh lot has avg = price
    have hcbval : cb = e.price * |new_q| := opening_cb s e hopen.1 hopen.2
    have havgval : avg = e.price := by
      have hrel := hpair.1 hopen.2
      rw [hrel, hcbval]
      rw [abs_div, abs_mul, abs_abs]
      rw [mul_div_assoc, div_self (abs_ne_zero.mpr hopen.2)]
      simp [abs_of_nonneg hp]
    rw [if_pos hopen, havgval, hcbval]
    split_ifs with h1 h2
    · ring
    · ring
    · -- both mark-to-market guards fail: the price must be 0
      have hp0 : e.price = 0 := by
        rcases lt_or_gt_of_ne hopen.2 with hn | hn
        · by_contra hne
          exact h2 ⟨hn, lt_of_le_of_ne hp (Ne.symm hne)⟩
        · by_contra hne
          exact h1 ⟨hn, lt_of_le_of_ne hp (Ne.symm hne)⟩
      rw [hp0]; ring
  · rw [if_neg hopen]
    rcases eq_or_ne new_q 0 with hq | hq
    · have hz := hpair.2 hq
      simp [hq, hz.1, hz.2]
    · have hrel := hpair.1 hq
      split_ifs with h1 h2 h3
      · exact absurd h1.1 (by linarith [h2.1])
      · ring
      · ring
      · -- avg = |cb / new_q| is non-negative, so avg = 0 and cb = 0
        have havg0 : avg = 0 := by
          rcases lt_or_gt_of_ne hq with hn | hn
          · by_contra hne
            have hap : 0 < avg :=
              lt_of_le_of_ne (hrel ▸ abs_nonneg _) (Ne.symm hne)
            exact h3 ⟨hn, hap⟩
          · by_contra hne
            have hap : 0 < avg :=
              lt_of_le_of_ne (hrel ▸ abs_nonneg _) (Ne.symm hne)
            exact h1 ⟨hn, hap⟩
        have hcb0 : cb = 0 := by
          have h4 := hrel
          rw [havg0] at h4
          have h5 := abs_eq_zero.mp h4.symm
          field_simp at h5
          exact h5
        simp [hcb0]


lemma pv_consistency_step (s : PortfolioState) (e : Event) (hp : 0 ≤ e.price)
    (IH : ∀ t, s.ticker_pv t = s.cost_basis t + s.ticker_unrealized t) :
    ∀ t, (process_trade s e).ticker_pv t
      = (process_trade s e).cost_basis t + (process_trade s e).ticker_unrealized t := by
  intro t
  rw [process_trade_ticker_pv, process_trade_cost_basis, process_trade_ticker_unrealized]
  by_cases ht : t = trade_key e
  · subst ht
    simp only [fupd_same]
    exact trade_pv_eq_cb_add_unreal s e hp
  · rw [fupd_other _ _ _ _ ht, fupd_other _ _ _ _ ht, fupd_other _ _ _ _ ht]
    exact IH t

lemma pv_consistency_run (events : List Event) (s : PortfolioState)
    (hp : ∀ e ∈ events, 0 ≤ e.price)
    (IH : ∀ t, s.ticker_pv t = s.cost_basis t + s.ticker_unrealized t) :
    ∀ t, (run_events s events).ticker_pv t
      = (run_events s events).cost_basis t + (run_events s events).ticker_unrealized t := by
  induction events generalizing s with
  | nil => exact IH
  | cons e es ih =>
    rw [run_events_cons]
    exact ih (process_trade s e)
      (fun e' he' => hp e' (List.mem_cons_of_mem e he'))
      (pv_consistency_step s e (hp e (List.mem_cons_self e es)) IH)

/-- C6: After any event sequence with non-negative prices (the data
model's price domain), every ticker with an open position has cached
position value equal to its cost basis plus its cached unrealized P&L —
including on opening bars, where the forced-zero unrealized value agrees
with `PV = cb` because the fresh lot's average price equals the entry
price exactly. -/
theorem c6_position_value_eq_cb_plus_unrealized (c : ℚ) (events : List Event)
    (hp : ∀ e ∈ events, 0 ≤ e.price) (t : String)
    (ht : (run_events (initial_portfolio_state c) events).quantities t ≠ 0) :
    (run_events (initial_portfolio_state c) events).ticker_pv t
      = (run_events (initial_portfolio_state c) events).cost_basis t
        + (run_events (initial_portfolio_state c) events).ticker_unrealized t :=
  pv_consistency_run events (initial_portfolio_state c) hp
    (fun _ => by simp [initial_portfolio_state]) t

/-- Witness for C6 on a concrete two-event run with an open long. -/
theorem c6_position_value_eq_cb_plus_unrealized_witness :
    (∀ e ∈ ([⟨"A", "Buy", 10, 4⟩, ⟨"A", "Sell", 12, 1⟩] : List Event), 0 ≤ e.price)
    ∧ (run_events (initial_portfolio_state 1000)
        [⟨"A", "Buy", 10, 4⟩, ⟨"A", "Sell", 12, 1⟩]).quantities "A" ≠ 0
    ∧ (run_events (initial_portfolio_state 1000)
        [⟨"A", "Buy", 10, 4⟩, ⟨"A", "Sell", 12, 1⟩]).ticker_pv "A"
      = (run_events (initial_portfolio_state 1000)
          [⟨"A", "Buy", 10, 4⟩, ⟨"A", "Sell", 12, 1⟩]).cost_basis "A"
        + (run_events (initial_portfolio_state 1000)
            [⟨"A", "Buy", 10, 4⟩, ⟨"A", "Sell", 12, 1⟩]).ticker_unrealized "A" :=
  ⟨by decide, by decide,
   c6_position_value_eq_cb_plus_unrealized 1000 [⟨"A", "Buy", 10, 4⟩, ⟨"A", "Sell", 12, 1⟩]
     (by decide) "A" (by decide)⟩

/-- Writing back the value already stored leaves the dictionary
unchanged. -/
lemma fupd_id {α : Type} (f : String → α) (k : String) : fupd f k (f k) = f := by
  funext t
  unfold fupd
  split
  · subst ‹t = k›; rfl
  · rfl

/-- Ledger invariant: a flat ticker has cost basis and average price 0,
and an open ticker's average price is `|cost basis / quantity|`. -/
lemma ledger_inv_run (events : List Event) (s : PortfolioState)
    (h : ∀ t, (s.quantities t = 0 → s.cost_basis t = 0 ∧ s.avg_price t = 0)
      ∧ (s.quantities t ≠ 0 → s.avg_price t = |s.cost_basis t / s.quantities t|)) :
    ∀ t, ((run_events s events).quantities t = 0
        → (run_events s events).cost_basis t = 0 ∧ (run_events s events).avg_price t = 0)
      ∧ ((run_events s events).quantities t ≠ 0
        → (run_events s events).avg_price t
          = |(run_events s events).cost_basis t / (run_events s events).quantities t|) := by
  induction events generalizing s with
  | nil => exact h
  | cons e es ih =>
    rw [run_events_cons]
    apply ih
    intro t
    rw [process_trade_quantities, process_trade_cost_basis, process_trade_avg_price]
    by_cases ht : t = trade_key e
    · subst ht
      simp only [fupd_same]
      have hpair : ((trade_new_q s e ≠ 0 →
            (trade_avgcb s e).1 = |(trade_avgcb s e).2 / trade_new_q s e|)
          ∧ (trade_new_q s e = 0 →
            (trade_avgcb s e).1 = 0 ∧ (trade_avgcb s e).2 = 0)) :=
        avgcb_pair e.side e.price (trade_qin e)
          (s.quantities (trade_key e)) (trade_new_q s e) (s.cost_basis (trade_key e))
      exact ⟨fun hz => ⟨(hpair.2 hz).2, (hpair.2 hz).1⟩, fun hnz => hpair.1 hnz⟩
    · rw [fupd_other _ _ _ _ ht, fupd_other _ _ _ _ ht, fupd_other _ _ _ _ ht]
      exact h t

/-- An unrecognized side leaves the quantity unchanged. -/
lemma invalid_side_new_q (s : PortfolioState) (e : Event)
    (hb : pyLower e.side ≠ "buy") (hs : pyLower e.side ≠ "sell")
    (hh : pyLower e.side ≠ "hold") :
    trade_new_q s e = s.quantities (trade_key e) := by
  unfold trade_new_q calculate_current_quantity_single
  simp [hb, hs, hh]

/-- An unrecognized side realizes nothing. -/
lemma invalid_side_point (s : PortfolioState) (e : Event)
    (hb : pyLower e.side ≠ "buy") (hs : pyLower e.side ≠ "sell") :
    trade_point s e = none := by
  unfold trade_point calculate_realized_pnl_at_point_of_time
  simp [hb, hs]

/-- C8 (amended): an event whose side is not Buy/Sell/Hold is NOT
rejected: processing completes normally, leaving quantities, remaining
cash, cost basis, average price, realized P&L, the Welford accumulators
and the trade-number state untouched (a no-op like Hold), while still
appending an output row. -/
theorem c8_invalid_side_no_op (c : ℚ) (events : List Event) (e : Event)
    (hb : pyLower e.side ≠ "buy") (hs : pyLower e.side ≠ "sell")
    (hh : pyLower e.side ≠ "hold") :
    (process_trade (run_events (initial_portfolio_state c) events) e).quantities
        = (run_events (initial_portfolio_state c) events).quantities
    ∧ (process_trade (run_events (initial_portfolio_state c) events) e).remaining
        = (run_events (initial_portfolio_state c) events).remaining
    ∧ (process_trade (run_events (initial_portfolio_state c) events) e).cost_basis
        = (run_events (initial_portfolio_state c) events).cost_basis
    ∧ (process_trade (run_events (initial_portfolio_state c) events) e).avg_price
        = (run_events (initial_portfolio_state c) events).avg_price
    ∧ (process_trade (run_events (initial_portfolio_state c) events) e).realized_pnl
        = (run_events (initial_portfolio_state c) events).realized_pnl
    ∧ (process_trade (run_events (initial_portfolio_state c) events) e).pnl_stats
        = (run_events (initial_portfolio_state c) events).pnl_stats
    ∧ (process_trade (run_events (initial_portfolio_state c) events) e).downside_stats
        = (run_events (initial_portfolio_state c) events).downside_stats
    ∧ (process_trade (run_events (initial_portfolio_state c) events) e).trade_tracker
        = (run_events (initial_portfolio_state c) events).trade_tracker
    ∧ (process_trade (run_events (initial_portfolio_state c) events) e).next_trade_number
        = (run_events (initial_portfolio_state c) events).next_trade_number
    ∧ (process_trade (run_events (initial_portfolio_state c) events) e).rows
        = (run_events (initial_portfolio_state c) events).rows
          ++ [trade_row (run_events (initial_portfolio_state c) events) e] := by
  set s := run_events (initial_portfolio_state c) events with hs_def
  have hinv := ledger_inv_run events (initial_portfolio_state c)
    (fun t => by simp [initial_portfolio_state])
  rw [← hs_def] at hinv
  have hnew := invalid_side_new_q s e hb hs hh
  have hpt := invalid_side_point s e hb hs
  have hcbavg : trade_avgcb s e
      = (s.avg_price (trade_key e), s.cost_basis (trade_key e)) := by
    have hpair : ((trade_new_q s e ≠ 0 →
          (trade_avgcb s e).1 = |(trade_avgcb s e).2 / trade_new_q s e|)
        ∧ (trade_new_q s e = 0 →
          (trade_avgcb s e).1 = 0 ∧ (trade_avgcb s e).2 = 0)) :=
      avgcb_pair e.side e.price (trade_qin e)
        (s.quantities (trade_key e)) (trade_new_q s e) (s.cost_basis (trade_key e))
    have hcb2 : (trade_avgcb s e).2
        = (if trade_new_q s e ≠ 0 then s.cost_basis (trade_key e) else 0) := by
      unfold trade_avgcb calculate_avg_price_and_cost_basis_single
      simp only [hb, hs, hh, if_false, ite_false]
      split_ifs <;> simp_all
    rcases eq_or_ne (trade_new_q s e) 0 with hz | hz
    · have h0 := hpair.2 hz
      rw [hnew] at hz
      have hi := (hinv (trade_key e)).1 hz
      exact Prod.ext (h0.1.trans hi.2.symm) (h0.2.trans hi.1.symm)
    · have h1 := hpair.1 hz
      have hcbv : (trade_avgcb s e).2 = s.cost_basis (trade_key e) := by
        rw [hcb2]; simp [hz]
      rw [hnew] at hz
      have hi := (hinv (trade_key e)).2 hz
      refine Prod.ext ?_ hcbv
      rw [h1, hcbv, hnew, ← hi]
  have htn : (trade_tn s e).2.1 = s.trade_tracker
      ∧ (trade_tn s e).2.2 = s.next_trade_number := by
    unfold trade_tn get_or_create_trade_number
    rw [hnew]
    simp only [hh, if_false, ite_false]
    by_cases h0 : s.quantities (trade_key e) = 0
    · simp [h0]
    · have hnoflip : ¬((0 < s.quantities (trade_key e) ∧ s.quantities (trade_key e) < 0)
          ∨ (s.quantities (trade_key e) < 0 ∧ 0 < s.quantities (trade_key e))) := by
        rintro (⟨h1, h2⟩ | ⟨h1, h2⟩) <;> linarith
      simp [h0, hnoflip]
  refine ⟨?_, ?_, ?_, ?_, ?_, ?_, ?_, ?_, ?_, ?_⟩
  · rw [process_trade_quantities, hnew, fupd_id]
  · rw [process_trade_remaining]
    unfold trade_remaining calculate_remaining_single
    simp only [hb, hs, hh, if_false, ite_false]
    split_ifs <;> rfl
  · rw [process_trade_cost_basis, show (trade_avgcb s e).2 = s.cost_basis (trade_key e)
      from by rw [hcbavg], fupd_id]
  · rw [process_trade_avg_price, show (trade_avgcb s e).1 = s.avg_price (trade_key e)
      from by rw [hcbavg], fupd_id]
  · rw [process_trade_realized, trade_cum_of_point, hpt]
    simp
  · rw [process_trade_pnl_stats]
    unfold trade_stats update_pnl_stats
    rw [hpt]
  · rw [process_trade_downside_stats]
    unfold trade_stats update_pnl_stats
    rw [hpt]
  · rw [process_trade_tracker, htn.1]
  · rw [process_trade_next, htn.2]
  · rw [process_trade_rows]

/-- C8 counterexample: the claim says a non-Buy/Sell/Hold side fails fast
with an InvalidSide error and mutates nothing, but processing the side
"FooBar" raises no error and appends an output row (the ledger grows from
1 to 2 rows). -/
theorem c8_counterexample_no_fail_fast :
    (pyLower "FooBar" ≠ "buy" ∧ pyLower "FooBar" ≠ "sell" ∧ pyLower "FooBar" ≠ "hold")
    ∧ (run_events (initial_portfolio_state 100)
        [⟨"A", "Buy", 10, 1⟩, ⟨"A", "FooBar", 11, 3⟩]).rows.length = 2 := by
  decide

/-- Concrete one-event history for the C8 witness. -/
def c8s_events : List Event := [⟨"A", "Buy", 10, 1⟩]

/-- Concrete invalid-side event for the C8 witness. -/
def c8e : Event := ⟨"A", "FooBar", 11, 3⟩

/-- Witness for C8 (amended) at the concrete invalid side "FooBar". -/
theorem c8_invalid_side_no_op_witness :
    (pyLower c8e.side ≠ "buy" ∧ pyLower c8e.side ≠ "sell" ∧ pyLower c8e.side ≠ "hold")
    ∧ ((process_trade (run_events (initial_portfolio_state 100) c8s_events) c8e).quantities
        = (run_events (initial_portfolio_state 100) c8s_events).quantities
      ∧ (process_trade (run_events (initial_portfolio_state 100) c8s_events) c8e).remaining
        = (run_events (initial_portfolio_state 100) c8s_events).remaining
      ∧ (process_trade (run_events (initial_portfolio_state 100) c8s_events) c8e).cost_basis
        = (run_events (initial_portfolio_state 100) c8s_events).cost_basis
      ∧ (process_trade (run_events (initial_portfolio_state 100) c8s_events) c8e).avg_price
        = (run_events (initial_portfolio_state 100) c8s_events).avg_price
      ∧ (process_trade (run_events (initial_portfolio_state 100) c8s_events) c8e).realized_pnl
        = (run_events (initial_portfolio_state 100) c8s_events).realized_pnl
      ∧ (process_trade (run_events (initial_portfolio_state 100) c8s_events) c8e).pnl_stats
        = (run_events (initial_portfolio_state 100) c8s_events).pnl_stats
      ∧ (process_trade (run_events (initial_portfolio_state 100) c8s_events) c8e).downside_stats
        = (run_events (initial_portfolio_state 100) c8s_events).downside_stats
      ∧ (process_trade (run_events (initial_portfolio_state 100) c8s_events) c8e).trade_tracker
        = (run_events (initial_portfolio_state 100) c8s_events).trade_tracker
      ∧ (process_trade (run_events (initial_portfolio_state 100) c8s_events) c8e).next_trade_number
        = (run_events (initial_portfolio_state 100) c8s_events).next_trade_number
      ∧ (process_trade (run_events (initial_portfolio_state 100) c8s_events) c8e).rows
        = (run_events (initial_portfolio_state 100) c8s_events).rows
          ++ [trade_row (run_events (initial_portfolio_state 100) c8s_events) c8e]) :=
  ⟨⟨by decide, by decide, by decide⟩,
   c8_invalid_side_no_op 100 c8s_events c8e (by decide) (by decide) (by decide)⟩

/-- A ticker holds an active trade identifier iff its quantity is
non-zero, preserved across every event. -/
lemma tracker_iff_run (events : List Event) (s : PortfolioState)
    (IH : ∀ t, (s.trade_tracker t).isSome ↔ s.quantities t ≠ 0) :
    ∀ t, ((run_events s events).trade_tracker t).isSome
      ↔ (run_events s events).quantities t ≠ 0 := by
  induction events generalizing s with
  | nil => exact IH
  | cons e es ih =>
    rw [run_events_cons]
    apply ih
    intro t
    rw [process_trade_tracker, process_trade_quantities]
    by_cases ht : t = trade_key e
    · subst ht
      unfold trade_tn get_or_create_trade_number
      simp only [fupd_same]
      by_cases hh : pyLower e.side = "hold"
      · have hnew : trade_new_q s e = s.quantities (trade_key e) := by
          unfold trade_new_q calculate_current_quantity_single
          simp [hh]
        simp only [hh, if_true, ite_true]
        split_ifs <;> simp_all [IH (trade_key e)]
      · by_cases h0 : s.quantities (trade_key e) = 0
          <;> by_cases h1 : trade_new_q s e = 0
        · have hnone : s.trade_tracker (trade_key e) = none := by
            have h := IH (trade_key e)
            simp [h0] at h
            exact Option.not_isSome_iff_eq_none.mp (by simp [h])
          simp [hh, h0, h1, hnone]
        · simp [hh, h0, h1, fupd_same]
        · simp [hh, h0, h1, fupd_same]
        · by_cases hflip : (0 < s.quantities (trade_key e) ∧ trade_new_q s e < 0)
              ∨ (s.quantities (trade_key e) < 0 ∧ 0 < trade_new_q s e)
          · simp [hh, h0, h1, hflip, fupd_same]
          · simp [hh, h0, h1, hflip, fupd_same, IH (trade_key e)]
    · have htr : (trade_tn s e).2.1 t = s.trade_tracker t := by
        unfold trade_tn get_or_create_trade_number
        by_cases hh : pyLower e.side = "hold"
        · simp only [hh, if_true, ite_true]
          split_ifs <;> rfl
        · simp only [hh, if_false, ite_false]
          split_ifs <;> simp [fupd_other _ _ _ _ ht]
      rw [htr, fupd_other _ _ _ _ ht]
      exact IH t


/-- The global trade counter never decreases. -/
lemma tn_next_mono (s : PortfolioState) (e : Event) :
    s.next_trade_number ≤ (process_trade s e).next_trade_number := by
  rw [process_trade_next]
  unfold trade_tn get_or_create_trade_number
  by_cases hh : pyLower e.side = "hold"
  · simp only [hh, if_true, ite_true]
    split_ifs <;> simp
  · simp only [hh, if_false, ite_false]
    split_ifs <;> simp [Nat.le_succ]

/-- Every active identifier is strictly below the global counter, so a
newly minted identifier (the counter value) is never an old one. -/
lemma ids_lt_next_run (events : List Event) (s : PortfolioState)
    (IH : ∀ t id, s.trade_tracker t = some id → id < s.next_trade_number) :
    ∀ t id, (run_events s events).trade_tracker t = some id
      → id < (run_events s events).next_trade_number := by
  induction events generalizing s with
  | nil => exact IH
  | cons e es ih =>
    rw [run_events_cons]
    apply ih
    intro t id
    rw [process_trade_next, process_trade_tracker]
    unfold trade_tn get_or_create_trade_number
    by_cases hh : pyLower e.side = "hold"
    · simp only [hh, if_true, ite_true]
      split_ifs <;> exact fun h => IH t id h
    · simp only [hh, if_false, ite_false]
      by_cases ht : t = trade_key e
      · subst ht
        split_ifs with hA hB hC hD <;> intro h
        · simp [fupd_same] at h
          show id < s.next_trade_number + 1
          omega
        · simp [fupd_same] at h
        · simp [fupd_same] at h
          show id < s.next_trade_number + 1
          omega
        · exact IH _ id h
        · exact IH _ id h
      · have hf : ∀ v : Option ℕ,
            fupd s.trade_tracker (trade_key e) v t = s.trade_tracker t :=
          fun v => fupd_other _ _ _ _ ht
        split_ifs <;> intro h <;> simp only [hf] at h <;>
          first
            | exact IH t id h
            | exact Nat.lt_succ_of_lt (IH t id h)


/-- A direction flip retires the old identifier (the flip row still
carries it) and mints the next counter value on the same event. -/
lemma flip_retires_and_mints (s : PortfolioState) (e : Event)
    (hflip : (0 < s.quantities (trade_key e) ∧ trade_new_q s e < 0)
      ∨ (s.quantities (trade_key e) < 0 ∧ 0 < trade_new_q s e)) :
    (process_trade s e).trade_tracker (trade_key e) = some s.next_trade_number
    ∧ (process_trade s e).next_trade_number = s.next_trade_number + 1
    ∧ (trade_row s e).tradeNumber = s.trade_tracker (trade_key e) := by
  have hold0 : s.quantities (trade_key e) ≠ 0 := by
    rcases hflip with ⟨h1, _⟩ | ⟨h1, _⟩
    · exact ne_of_gt h1
    · exact ne_of_lt h1
  have hnew0 : trade_new_q s e ≠ 0 := by
    rcases hflip with ⟨_, h2⟩ | ⟨_, h2⟩
    · exact ne_of_lt h2
    · exact ne_of_gt h2
  have hh : pyLower e.side ≠ "hold" := by
    intro hh
    have heq : trade_new_q s e = s.quantities (trade_key e) := by
      unfold trade_new_q calculate_current_quantity_single
      simp [hh]
    rcases hflip with ⟨h1, h2⟩ | ⟨h1, h2⟩ <;> rw [heq] at h2 <;> linarith
  have htn : trade_tn s e
      = (s.trade_tracker (trade_key e),
         fupd s.trade_tracker (trade_key e) (some s.next_trade_number),
         s.next_trade_number + 1) := by
    unfold trade_tn get_or_create_trade_number
    rw [if_neg hh, if_neg (by rintro ⟨h1, _⟩; exact hold0 h1),
      if_neg (by rintro ⟨_, h2⟩; exact hnew0 h2),
      if_pos ⟨hold0, hnew0⟩, if_pos hflip]
  refine ⟨?_, ?_, ?_⟩
  · rw [process_trade_tracker, htn]
    simp [fupd_same]
  · rw [process_trade_next, htn]
  · show (trade_tn s e).1 = s.trade_tracker (trade_key e)
    rw [htn]


/-- Ten sequential opening events across ten distinct tickers. -/
def c9_opens : List Event :=
  [⟨"T1", "Buy", 1, 1⟩, ⟨"T2", "Buy", 1, 1⟩, ⟨"T3", "Buy", 1, 1⟩, ⟨"T4", "Buy", 1, 1⟩,
   ⟨"T5", "Buy", 1, 1⟩, ⟨"T6", "Buy", 1, 1⟩, ⟨"T7", "Buy", 1, 1⟩, ⟨"T8", "Buy", 1, 1⟩,
   ⟨"T9", "Buy", 1, 1⟩, ⟨"T10", "Buy", 1, 1⟩]

/-- Ten closing events for the ten tickers of `c9_opens`. -/
def c9_closes : List Event :=
  [⟨"T1", "Sell", 1, 1⟩, ⟨"T2", "Sell", 1, 1⟩, ⟨"T3", "Sell", 1, 1⟩, ⟨"T4", "Sell", 1, 1⟩,
   ⟨"T5", "Sell", 1, 1⟩, ⟨"T6", "Sell", 1, 1⟩, ⟨"T7", "Sell", 1, 1⟩, ⟨"T8", "Sell", 1, 1⟩,
   ⟨"T9", "Sell", 1, 1⟩, ⟨"T10", "Sell", 1, 1⟩]

/-- C9: Trade identifiers come from one strictly increasing global
counter and are never reused: ten sequential opens across ten distinct
tickers receive ids 1..10; after closing all ten, reopening one assigns
the fresh id 11; a ticker holds an active identifier iff its quantity is
non-zero; every active id stays below the monotone counter; and a
direction flip retires the old identifier (kept on the flip row) while
minting the next counter value on the same event. -/
theorem c9_trade_identifier_lifecycle :
    (((run_events (initial_portfolio_state 1000)
          (c9_opens ++ c9_closes ++ [⟨"T1", "Buy", 1, 1⟩])).rows.map Row.tradeNumber)
        = [some 1, some 2, some 3, some 4, some 5, some 6, some 7, some 8, some 9, some 10,
           some 1, some 2, some 3, some 4, some 5, some 6, some 7, some 8, some 9, some 10,
           some 11]
      ∧ (run_events (initial_portfolio_state 1000)
          (c9_opens ++ c9_closes)).trade_tracker "T1" = none
      ∧ (run_events (initial_portfolio_state 1000)
          (c9_opens ++ c9_closes ++ [⟨"T1", "Buy", 1, 1⟩])).trade_tracker "T1" = some 11
      ∧ (run_events (initial_portfolio_state 1000)
          (c9_opens ++ c9_closes ++ [⟨"T1", "Buy", 1, 1⟩])).next_trade_number = 12)
    ∧ (∀ (c : ℚ) (events : List Event) (t : String),
        ((run_events (initial_portfolio_state c) events).trade_tracker t).isSome
          ↔ (run_events (initial_portfolio_state c) events).quantities t ≠ 0)
    ∧ (∀ (c : ℚ) (events : List Event) (t : String) (id : ℕ),
        (run_events (initial_portfolio_state c) events).trade_tracker t = some id
          → id < (run_events (initial_portfolio_state c) events).next_trade_number)
    ∧ (∀ (s : PortfolioState) (e : Event),
        s.next_trade_number ≤ (process_trade s e).next_trade_number)
    ∧ (∀ (s : PortfolioState) (e : Event),
        ((0 < s.quantities (trade_key e) ∧ trade_new_q s e < 0)
          ∨ (s.quantities (trade_key e) < 0 ∧ 0 < trade_new_q s e)) →
        (process_trade s e).trade_tracker (trade_key e) = some s.next_trade_number
        ∧ (process_trade s e).next_trade_number = s.next_trade_number + 1
        ∧ (trade_row s e).tradeNumber = s.trade_tracker (trade_key e)) :=
  ⟨by decide,
   fun _ events t =>
     tracker_iff_run events _ (fun _ => by simp [initial_portfolio_state]) t,
   fun _ events t id =>
     ids_lt_next_run events _ (fun t id h => by simp [initial_portfolio_state] at h) t id,
   tn_next_mono,
   flip_retires_and_mints⟩

/-- Witness for C9's quantified parts: the empty history and ticker "X"
for the invariants, and the concrete AAPL long-to-short flip for the
retire-and-mint rule. -/
theorem c9_trade_identifier_lifecycle_witness :
    ((((run_events (initial_portfolio_state 200)
          [⟨"AAPL", "Buy", 10, 10⟩]).trade_tracker "AAPL").isSome
        ↔ (run_events (initial_portfolio_state 200)
            [⟨"AAPL", "Buy", 10, 10⟩]).quantities "AAPL" ≠ 0)
      ∧ ((run_events (initial_portfolio_state 200)
            [⟨"AAPL", "Buy", 10, 10⟩]).trade_tracker "AAPL" = some 1
        ∧ (1 : ℕ) < (run_events (initial_portfolio_state 200)
            [⟨"AAPL", "Buy", 10, 10⟩]).next_trade_number)
      ∧ c1s.next_trade_number ≤ (process_trade c1s c1e).next_trade_number)
    ∧ ((0 < c1s.quantities (trade_key c1e) ∧ trade_new_q c1s c1e < 0)
      ∨ (c1s.quantities (trade_key c1e) < 0 ∧ 0 < trade_new_q c1s c1e))
    ∧ ((process_trade c1s c1e).trade_tracker (trade_key c1e) = some c1s.next_trade_number
      ∧ (process_trade c1s c1e).next_trade_number = c1s.next_trade_number + 1
      ∧ (trade_row c1s c1e).tradeNumber = c1s.trade_tracker (trade_key c1e)) :=
  ⟨⟨c9_trade_identifier_lifecycle.2.1 200 [⟨"AAPL", "Buy", 10, 10⟩] "AAPL",
    ⟨by decide,
     c9_trade_identifier_lifecycle.2.2.1 200 [⟨"AAPL", "Buy", 10, 10⟩] "AAPL" 1 (by decide)⟩,
    c9_trade_identifier_lifecycle.2.2.2.1 c1s c1e⟩,
   Or.inl ⟨by decide, by decide⟩,
   c9_trade_identifier_lifecycle.2.2.2.2 c1s c1e (Or.inl ⟨by decide, by decide⟩)⟩

end Portfolio
